import Mathlib

/-!
Verification development for the opencl-language-server core
(src/jsonrpc.cpp and the diagnostics implementation appended to it).

The development shallowly embeds the two subsystems:

* the JSON-RPC endpoint (JsonRPC::Consume and its dispatch helpers),
  as a state structure `Endpoint`, a per-byte step `consume` producing
  a list of observable `Event`s (writes to the output sink, method
  handler invocations, respond-callback invocations), and
* the diagnostics engine (Diagnostics::SetOpenCLDevice and
  Diagnostics::BuildDiagnostics with its helpers ParseSeverity and
  ParseOutput), as pure list functions.

External collaborators are embedded as follows: nlohmann JSON values
become the inductive `J` with `Json.parse` an executable parser of the
JSON fragment the server exchanges (objects, arrays, strings with the
common escapes, integers, literals); method handlers and the respond
callback are opaque to the endpoint and are recorded as events (the
code catches every exception a method handler throws, so handler
behaviour cannot affect the endpoint state); machine integers are
modelled as Nat/Int, with int arithmetic on the problem counter kept
in Int (the counter and cap stay far below 2^31 in every statement
proved here, so no wraparound is dropped).
-/

namespace Ocls

/-- JSON values, after nlohmann::json.  Object fields keep insertion
order; lookup takes the first binding, which agrees with the parsed
objects used here (no duplicate keys). -/
inductive J where
  | null
  | bool (b : Bool)
  | num (n : Int)
  | str (s : String)
  | arr (elems : List J)
  | obj (fields : List (String × J))

/-- nlohmann operator[](key) on a non-const json: an object yields the
stored value (or null when the key is absent), null is promoted to an
object and yields null, and every other value throws type_error.
`none` models the throw. -/
def J.index : J → String → Option J
  | .obj fs, k => some ((fs.lookup k).getD .null)
  | .null, _ => some .null
  | _, _ => none

/-- json != nullptr in the source is the negation of this test. -/
def J.isNull : J → Bool
  | .null => true
  | _ => false

/-- Two-level read body[k1][k2].get of a string, as used by
OnInitialize and OnTracingChanged; `none` models the caught
exception (missing or non-string value, or non-object container). -/
def getString2 (body : J) (k1 k2 : String) : Option String :=
  match body.index k1 with
  | none => none
  | some p =>
    match p.index k2 with
    | some (.str s) => some s
    | _ => none

/-! ### A JSON parser for the exchanged fragment

Models nlohmann json::parse on the JSON fragment the server
exchanges.  Numbers are integers (the LSP traffic the server reads
carries ids, process ids and counts); \uXXXX escapes and
floating-point literals are outside the modelled fragment and fail. -/

def skipWs : List Char → List Char
  | c :: cs =>
    if c = ' ' ∨ c = '\t' ∨ c = '\n' ∨ c = '\r' then skipWs cs else c :: cs
  | [] => []

def escChar : Char → Option Char
  | '"' => some '"'
  | '\\' => some '\\'
  | '/' => some '/'
  | 'b' => some (Char.ofNat 8)
  | 'f' => some (Char.ofNat 12)
  | 'n' => some '\n'
  | 'r' => some '\r'
  | 't' => some '\t'
  | _ => none

/-- Parse the remainder of a string literal (the opening quote already
consumed); yields the contents and the rest of the input. -/
def parseStringRest : List Char → Option (List Char × List Char)
  | [] => none
  | '"' :: cs => some ([], cs)
  | '\\' :: c :: cs =>
    match escChar c with
    | some d => (parseStringRest cs).map fun (s, r) => (d :: s, r)
    | none => none
  | '\\' :: [] => none
  | c :: cs => (parseStringRest cs).map fun (s, r) => (c :: s, r)

def digitsToNat (ds : List Char) : Nat :=
  ds.foldl (fun n c => 10 * n + (c.toNat - 48)) 0

def parseIntLit (cs : List Char) : Option (Int × List Char) :=
  match cs with
  | '-' :: rest =>
    let ds := rest.takeWhile Char.isDigit
    if ds.isEmpty then none
    else some (-(digitsToNat ds : Int), rest.dropWhile Char.isDigit)
  | _ =>
    let ds := cs.takeWhile Char.isDigit
    if ds.isEmpty then none
    else some ((digitsToNat ds : Int), cs.dropWhile Char.isDigit)

mutual

def parseValue : Nat → List Char → Option (J × List Char)
  | 0, _ => none
  | fuel + 1, cs =>
    match skipWs cs with
    | [] => none
    | 'n' :: 'u' :: 'l' :: 'l' :: rest => some (.null, rest)
    | 't' :: 'r' :: 'u' :: 'e' :: rest => some (.bool true, rest)
    | 'f' :: 'a' :: 'l' :: 's' :: 'e' :: rest => some (.bool false, rest)
    | '"' :: rest =>
    (parseStringRest rest).map fun (s, r) => (.str (String.mk s), r)
    | '[' :: rest =>
    (match skipWs rest with
      | ']' :: r => some (.arr [], r)
      | other => (parseElems fuel other).map fun (vs, r) => (.arr vs, r))
    | '{' :: rest =>
    (match skipWs rest with
      | '}' :: r => some (.obj [], r)
      | other => (parseMembers fuel other).map fun (fs, r) => (.obj fs, r))
    | other => (parseIntLit other).map fun (n, r) => (.num n, r)

def parseElems : Nat → List Char → Option (List J × List Char)
  | 0, _ => none
  | fuel + 1, cs =>
    match parseValue fuel cs with
    | none => none
    | some (v, r) =>
      match skipWs r with
      | ',' :: r2 => (parseElems fuel r2).map fun (vs, r3) => (v :: vs, r3)
      | ']' :: r2 => some ([v], r2)
      | _ => none

def parseMembers : Nat → List Char → Option (List (String × J) × List Char)
  | 0, _ => none
  | fuel + 1, cs =>
    match skipWs cs with
    | '"' :: rest =>
      (match parseStringRest rest with
      | none => none
      | some (key, r) =>
        match skipWs r with
        | ':' :: r2 =>
          (match parseValue fuel r2 with
          | none => none
          | some (v, r3) =>
            match skipWs r3 with
            | ',' :: r4 =>
              (parseMembers fuel r4).map fun (fs, r5) => ((String.mk key, v) :: fs, r5)
            | '}' :: r4 => some ([(String.mk key, v)], r4)
            | _ => none)
        | _ => none)
    | _ => none

end

/-- json::parse over a whole buffer: one value, then only whitespace. -/
def Json.parse (cs : List Char) : Option J :=
  match parseValue (2 * cs.length + 2) cs with
  | some (v, rest) => if (skipWs rest).isEmpty then some v else none
  | none => none

/-! ### The JSON-RPC endpoint (src/jsonrpc.cpp) -/

/-- Instance state of ocls::JsonRPC.  m_headers is omitted: the parsed
header map is only ever logged.  m_body is not stored: the parsed body
is threaded through dispatch directly (it is dead after Consume
returns).  Handlers and the respond callback are kept as the set of
registered method names and a registration flag; their invocations are
emitted as events. -/
structure Endpoint where
  buffer : List Char
  validHeader : Bool
  contentLength : Nat
  method : String
  initialized : Bool
  tracing : Bool
  verbosity : Bool
  isProcessing : Bool
  callbacks : List String
  hasRespondCallback : Bool

/-- Observable actions of the endpoint: a Write of a json value to the
output sink, a method-handler invocation, a respond-callback
invocation. -/
inductive Event where
  | write (data : J)
  | methodCall (method : String) (body : J)
  | respondCall (body : J)

/-- JsonRPC::ErrorCode. -/
inductive ErrorCode where
  | ParseError
  | InvalidRequest
  | MethodNotFound
  | InvalidParams
  | InternalError
  | NotInitialized

/-- Modelled from the spec: the numeric values of JsonRPC::ErrorCode
are declared in jsonrpc.hpp, which is not under src/; the values are
taken from the error-code table of the spec (and agree with JSON-RPC
and LSP). -/
def ErrorCode.toInt : ErrorCode → Int
  | .ParseError => -32700
  | .InvalidRequest => -32600
  | .MethodNotFound => -32601
  | .InvalidParams => -32602
  | .InternalError => -32603
  | .NotInitialized => -32002

/-- JsonRPC::WriteError: the json object handed to Write. -/
def errorResponse (code : ErrorCode) (message : String) : J :=
  .obj [("error", .obj [("code", .num code.toInt), ("message", .str message)])]

/-- JsonRPC::IsReady. -/
def IsReady (e : Endpoint) : Bool := !e.isProcessing

/-- JsonRPC::Reset (m_body and m_headers are not part of the state). -/
def Reset (e : Endpoint) : Endpoint :=
  { e with method := "", buffer := [], validHeader := false,
           contentLength := 0, isProcessing := true }

/-- JsonRPC::LogTrace. -/
def logTrace (e : Endpoint) (message verbose : String) : List Event :=
  if !e.tracing then []
  else if verbose != "" && !e.verbosity then []
  else
    [Event.write (.obj
      [("method", .str "$/logTrace"),
       ("params", .obj
         [("message", .str message),
          ("verbose", .str (if e.verbosity then verbose else ""))])])]

/-- JsonRPC::OnInitialize.  Reading params.trace throws when the field
is absent or not a string; the exception is caught inside OnInitialize
before any flag was assigned, so the state is returned unchanged. -/
def onInitialize (e : Endpoint) (body : J) : Endpoint :=
  match getString2 body "params" "trace" with
  | none => e
  | some tv =>
    { e with tracing := tv != "off", verbosity := tv == "verbose",
             initialized := true }

/-- JsonRPC::OnTracingChanged, same reading discipline on
params.value. -/
def onTracingChanged (e : Endpoint) (body : J) : Endpoint :=
  match getString2 body "params" "value" with
  | none => e
  | some tv => { e with tracing := tv != "off", verbosity := tv == "verbose" }

/-- JsonRPC::FireRespondCallback. -/
def fireRespondCallback (e : Endpoint) (body : J) : List Event :=
  if e.hasRespondCallback then [Event.respondCall body] else []

/-- m_method.rfind with position 0 compared against npos: the test
whether the method name starts with the dollar-slash prefix. -/
def startsDollarSlash (s : String) : Bool :=
  "$/".data.isPrefixOf s.data

/-- The no-handler branch of JsonRPC::FireMethodCallback: isRequest
reads m_body[params][id] (throwing, hence `none`, when params is a
non-object value); mustRespond adds methods whose name does not start
with the dollar-slash prefix. -/
def methodNotFoundEvents (e : Endpoint) (body : J) : Option (List Event) :=
  match body.index "params" with
  | none => none
  | some p =>
    match p.index "id" with
    | none => none
    | some idv =>
      some
        (if !idv.isNull || !(startsDollarSlash e.method)
         then [Event.write (errorResponse .MethodNotFound
                 ("Method '" ++ e.method ++ "' is not supported."))]
         else [])

/-- JsonRPC::FireMethodCallback.  A found handler is invoked with the
body; every exception it throws is caught inside, so the call is one
event.  `none` propagates the uncaught throw of the no-handler
branch. -/
def fireMethodCallback (e : Endpoint) (body : J) : Option (List Event) :=
  if e.callbacks.contains e.method then
    some [Event.methodCall e.method body]
  else methodNotFoundEvents e body

/-- The catch block of JsonRPC::Consume: clear the buffer, report
ParseError; m_isProcessing is left as it was. -/
def parseFailure (e : Endpoint) : Endpoint × List Event :=
  ({ e with buffer := [] },
   [Event.write (errorResponse .ParseError "Failed to parse request")])

/-- Dispatch tail shared by every method-carrying path: fire the
method callback, then clear m_isProcessing; a throw escaping
FireMethodCallback lands in the catch block instead. -/
def finishDispatch (e : Endpoint) (body : J) : Endpoint × List Event :=
  match fireMethodCallback e body with
  | none => parseFailure e
  | some evs => ({ e with isProcessing := false }, evs)

/-- Dispatch of a message whose method field is the string m
(m_method has just been assigned). -/
def dispatchStr (e : Endpoint) (body : J) (m : String) : Endpoint × List Event :=
  if m = "initialize" then
    finishDispatch (onInitialize { e with method := m } body) body
  else if e.initialized = false then
    ({ e with method := m },
     [Event.write (errorResponse .NotInitialized "Server was not initialized.")])
  else if m = "$/setTrace" then
    finishDispatch (onTracingChanged { e with method := m } body) body
  else
    finishDispatch { e with method := m } body

/-- Lines 56-80 of JsonRPC::Consume: read m_body[method] (its throw
for a non-object body lands in the catch block); a string method is
dispatched, anything else goes to the respond callback, and
m_isProcessing is cleared at the end of the paths that reach line
80. -/
def dispatch (e : Endpoint) (body : J) : Endpoint × List Event :=
  match body.index "method" with
  | none => parseFailure e
  | some (J.str m) => dispatchStr e body m
  | some _ => ({ e with isProcessing := false }, fireRespondCallback e body)

/-- Body-complete step of Consume: parse the buffer, then dispatch;
a parse failure is the catch block. -/
def finishBody (e : Endpoint) : Endpoint × List Event :=
  match Json.parse e.buffer with
  | none => parseFailure e
  | some body => dispatch e body

def trimSpaces (cs : List Char) : List Char :=
  ((cs.dropWhile (· = ' ')).reverse.dropWhile (· = ' ')).reverse

/-- std::stoi on the digits of a header value (values in range). -/
def stoiNat (s : String) : Nat := digitsToNat (s.data.takeWhile Char.isDigit)

/-- Modelled from the spec: JsonRPC::ReadHeader matches m_headerRegex,
declared in jsonrpc.hpp which is not under src/; per the spec a header
line is Name: Value terminated by CRLF, the name being everything
before the first colon and the value trimmed of surrounding blanks. -/
def readHeaderLine (buffer : List Char) : Option (String × String) :=
  match buffer.reverse with
  | '\n' :: '\r' :: revLine =>
    (match revLine.reverse.span (fun c => c ≠ ':') with
    | (name, ':' :: rest) =>
      if name.isEmpty then none
      else some (String.mk name, String.mk (trimSpaces rest))
    | _ => none)
  | _ => none

/-- Header-region branch of JsonRPC::Consume (buffer already holds the
new byte): a recognised header line is consumed (Content-Length is
parsed), then the bare CRLF line transitions to the body region when
the announced length is positive and reports InvalidRequest
otherwise. -/
def consumeHeader (e : Endpoint) : Endpoint × List Event :=
  let e1 :=
    match readHeaderLine e.buffer with
    | some (name, value) =>
      { e with buffer := [],
               contentLength :=
                 if name = "Content-Length" then stoiNat value
                 else e.contentLength }
    | none => e
  if e1.buffer = ['\r', '\n'] then
    if 0 < e1.contentLength then
      ({ e1 with buffer := [], validHeader := true }, [])
    else
      ({ e1 with buffer := [], validHeader := false },
       [Event.write (errorResponse .InvalidRequest "Invalid content length")])
  else (e1, [])

/-- JsonRPC::Consume: the byte is appended to m_buffer first; in the
body region nothing further happens until the buffer reaches
m_contentLength, upon which the buffer is parsed and dispatched. -/
def consume (e : Endpoint) (c : Char) : Endpoint × List Event :=
  if e.validHeader then
    if (e.buffer ++ [c]).length ≠ e.contentLength then
      ({ e with buffer := e.buffer ++ [c] }, [])
    else finishBody { e with buffer := e.buffer ++ [c] }
  else consumeHeader { e with buffer := e.buffer ++ [c] }

/-- Feed a byte sequence, collecting the events in order. -/
def consumeAll (e : Endpoint) : List Char → Endpoint × List Event
  | [] => (e, [])
  | c :: cs =>
    let s1 := consume e c
    let s2 := consumeAll s1.1 cs
    (s2.1, s1.2 ++ s2.2)

/-! ### The diagnostics engine -/

/-- An OpenCL device as seen by Diagnostics::SetOpenCLDevice: its
stable identifier (ICLInfo::GetDeviceID) and its power index
(GetDevicePowerIndex = max compute units times max clock
frequency). -/
structure Device where
  deviceID : Nat
  powerIndex : Nat
deriving DecidableEq

/-- Inner loop of SetOpenCLDevice over the devices of one platform:
a device matching the identifier is taken and breaks out of this
platform; otherwise a device whose power index strictly exceeds the
running maximum (which started at zero for this platform) becomes the
selection. -/
def deviceLoop (identifier : Nat) : List Device → Nat → Option Device → Option Device
  | [], _, sel => sel
  | d :: ds, maxPI, sel =>
    if identifier = d.deviceID then some d
    else if d.powerIndex > maxPI then deviceLoop identifier ds d.powerIndex (some d)
    else deviceLoop identifier ds maxPI sel

/-- Outer loop of SetOpenCLDevice over the platforms: a platform with
no devices is skipped, and maxPowerIndex restarts at zero for every
platform while selectedDevice persists. -/
def platformLoop (identifier : Nat) : List (List Device) → Option Device → Option Device
  | [], sel => sel
  | p :: ps, sel =>
    if p.isEmpty then platformLoop identifier ps sel
    else platformLoop identifier ps (deviceLoop identifier p 0 sel)

/-- Diagnostics::SetOpenCLDevice: with no platforms the function
returns early and m_device keeps its previous value; otherwise
m_device becomes the result of the scan started from an empty
selection. -/
def SetOpenCLDevice (identifier : Nat) (platforms : List (List Device))
    (prev : Option Device) : Option Device :=
  if platforms.isEmpty then prev
  else platformLoop identifier platforms none

/-- ParseSeverity (anonymous namespace of the diagnostics unit). -/
def ParseSeverity (severity : List Char) : Int :=
  if severity = "error".data then 1
  else if severity = "warning".data then 2
  else -1

/-- An LSP position as emitted by BuildDiagnostics; line is what the
code stores after its adjustment, so it is an Int. -/
structure Position where
  line : Int
  character : Int
deriving DecidableEq

/-- The range object built by BuildDiagnostics; the stop field holds
the JSON key named end. -/
structure Range where
  start : Position
  stop : Position
deriving DecidableEq

/-- One diagnostic record as built by BuildDiagnostics. -/
structure Diagnostic where
  source : String
  range : Range
  severity : Int
  message : String
deriving DecidableEq

/-- The capture groups of m_regex on one matched line: group 1
(source token), groups 2 and 3 (line and column digit runs, as
numbers), group 4 (the full severity phrase) and group 6 (the
message). -/
structure LogMatch where
  source : List Char
  line : Nat
  col : Nat
  sev : List Char
  message : List Char
deriving DecidableEq

/-- Drop an expected literal prefix. -/
def stripLit (pre cs : List Char) : Option (List Char) :=
  if pre.isPrefixOf cs then some (cs.drop pre.length) else none

/-- The alternation ((fatal )?error|warning|Scholar) of m_regex,
followed by the literal colon-space; the alternatives are mutually
exclusive at a fixed position, so ECMAScript alternation order does
not matter.  Yields group 4 and the remainder (group 6). -/
def matchSeverity (cs : List Char) : Option (List Char × List Char) :=
  match stripLit "fatal error: ".data cs with
  | some rest => some ("fatal error".data, rest)
  | none =>
  match stripLit "error: ".data cs with
  | some rest => some ("error".data, rest)
  | none =>
  match stripLit "warning: ".data cs with
  | some rest => some ("warning".data, rest)
  | none =>
  match stripLit "Scholar: ".data cs with
  | some rest => some ("Scholar".data, rest)
  | none => none

/-- The part of m_regex after the first captured colon:
(\d+):(\d+): then the severity alternation then the message.  The
digit runs are maximal (a shorter run would have to be followed by a
colon, which is not a digit), matching ECMAScript greediness. -/
def matchAfterColon (cs : List Char) : Option (Nat × Nat × List Char × List Char) :=
  let d1 := cs.takeWhile Char.isDigit
  let r1 := cs.dropWhile Char.isDigit
  if d1.isEmpty then none else
  match r1 with
  | ':' :: r2 =>
    let d2 := r2.takeWhile Char.isDigit
    let r3 := r2.dropWhile Char.isDigit
    if d2.isEmpty then none else
    (match r3 with
    | ':' :: ' ' :: r4 =>
      (match matchSeverity r4 with
      | some (sev, msg) => some (digitsToNat d1, digitsToNat d2, sev, msg)
      | none => none)
    | _ => none)
  | _ => none

/-- std::regex_search of one build-log line against m_regex, which is
anchored on both sides.  The leading greedy (.*) makes the match use
the rightmost colon whose tail fits the rest of the pattern, so later
split points are preferred; matches.size() == 7 in the code is
exactly the some case here. -/
def regexMatch : List Char → Option LogMatch
  | [] => none
  | c :: cs =>
    match regexMatch cs with
    | some m => some { m with source := c :: m.source }
    | none =>
      if c = ':' then
        match matchAfterColon cs with
        | some (line, col, sev, msg) =>
          some { source := [], line := line, col := col, sev := sev, message := msg }
        | none => none
      else none

/-- ParseOutput together with the json assembly in the loop body of
BuildDiagnostics: LSP lines are zero-indexed so one is subtracted,
the column is kept as captured, and the range is a point. -/
def mkDiagnostic (name : List Char) (m : LogMatch) : Diagnostic :=
  { source := String.mk (if name.isEmpty then m.source else name),
    range :=
      { start := { line := (m.line : Int) - 1, character := (m.col : Int) },
        stop := { line := (m.line : Int) - 1, character := (m.col : Int) } },
    severity := ParseSeverity m.sev,
    message := String.mk m.message }

/-- Modelled from the spec: utils::SplitString (utils.cpp is not
under src/) splits the build log on the newline character. -/
def splitLines : List Char → List (List Char)
  | [] => [[]]
  | '\n' :: cs => [] :: splitLines cs
  | c :: cs =>
    match splitLines cs with
    | l :: ls => (c :: l) :: ls
    | [] => [[c]]

/-- The scanning loop of Diagnostics::BuildDiagnostics: lines that do
not match are skipped without touching the counter; on a matched line
the post-incremented counter is compared against
m_maxNumberOfProblems and the loop breaks once the old value exceeds
it, otherwise the diagnostic is emitted. -/
def buildLoop (maxProblems : Int) (name : List Char) :
    Int → List (List Char) → List Diagnostic
  | _, [] => []
  | count, l :: ls =>
    match regexMatch l with
    | none => buildLoop maxProblems name count ls
    | some m =>
      if count > maxProblems then []
      else mkDiagnostic name m :: buildLoop maxProblems name (count + 1) ls

/-- Diagnostics::BuildDiagnostics, with m_maxNumberOfProblems (set by
SetMaxProblemsCount, default 100) passed explicitly. -/
def BuildDiagnostics (maxProblems : Int) (buildLog : String) (name : String) :
    List Diagnostic :=
  buildLoop maxProblems name.data 0 (splitLines buildLog.data)

/-! ## Theorems

One theorem (plus witness or counterexample where required) per claim
of the specification, with shared helper lemmas. -/

/-! ### Device selection (claim C1) -/

theorem deviceLoop_cons (identifier : Nat) (d : Device) (ds : List Device)
    (maxPI : Nat) (sel : Option Device) :
    deviceLoop identifier (d :: ds) maxPI sel =
      if identifier = d.deviceID then some d
      else if d.powerIndex > maxPI then deviceLoop identifier ds d.powerIndex (some d)
      else deviceLoop identifier ds maxPI sel := rfl

theorem platformLoop_cons (identifier : Nat) (p : List Device)
    (ps : List (List Device)) (sel : Option Device) :
    platformLoop identifier (p :: ps) sel =
      if p.isEmpty then platformLoop identifier ps sel
      else platformLoop identifier ps (deviceLoop identifier p 0 sel) := rfl

theorem find?_device_cons (identifier : Nat) (d : Device) (ds : List Device) :
    List.find? (fun x => identifier == x.deviceID) (d :: ds) =
      if identifier = d.deviceID then some d
      else List.find? (fun x => identifier == x.deviceID) ds := by
  by_cases hd : identifier = d.deviceID
  · rw [if_pos hd]
    exact List.find?_cons_of_pos _ (by simpa using hd)
  · rw [if_neg hd]
    exact List.find?_cons_of_neg _ (by simpa using hd)

theorem deviceLoop_find (identifier : Nat) :
    ∀ (p : List Device) (maxPI : Nat) (sel : Option Device),
      (p.find? (fun d => identifier == d.deviceID)).isSome = true →
      deviceLoop identifier p maxPI sel =
        p.find? (fun d => identifier == d.deviceID) := by
  intro p
  induction p with
  | nil => intro maxPI sel h; simp [List.find?] at h
  | cons d ds ih =>
    intro maxPI sel h
    rw [deviceLoop_cons, find?_device_cons]
    rw [find?_device_cons] at h
    by_cases hd : identifier = d.deviceID
    · rw [if_pos hd, if_pos hd]
    · rw [if_neg hd] at h
      rw [if_neg hd, if_neg hd]
      by_cases hp : d.powerIndex > maxPI
      · rw [if_pos hp]; exact ih _ _ h
      · rw [if_neg hp]; exact ih _ _ h

theorem platformLoop_append (identifier : Nat) (ps qs : List (List Device)) :
    ∀ sel, platformLoop identifier (ps ++ qs) sel =
      platformLoop identifier qs (platformLoop identifier ps sel) := by
  induction ps with
  | nil => intro sel; rfl
  | cons p ps ih =>
    intro sel
    rw [List.cons_append, platformLoop_cons, platformLoop_cons]
    by_cases hp : p.isEmpty = true
    · rw [if_pos hp, if_pos hp]; exact ih _
    · rw [if_neg hp, if_neg hp]; exact ih _

/-- Claim C1 (amended): a device matching the requested stable id is
selected when met and ends the scan of its own platform only; later
platforms are still scanned, with the running power maximum restarted
at zero, and may override the selection.  Consequently the match is
guaranteed to be the final selection exactly when nothing later
overrides it; in particular, when some device of the last enumerated
platform matches, the final selection is the first such device. -/
theorem setOpenCLDevice_match_last_platform (identifier : Nat)
    (ps : List (List Device)) (p : List Device) (prev : Option Device)
    (h : (p.find? (fun d => identifier == d.deviceID)).isSome = true) :
    SetOpenCLDevice identifier (ps ++ [p]) prev =
      p.find? (fun d => identifier == d.deviceID) := by
  have hp : ¬ (p.isEmpty = true) := by
    cases p with
    | nil => simp [List.find?] at h
    | cons d ds => simp [List.isEmpty]
  unfold SetOpenCLDevice
  rw [if_neg (by cases ps <;> simp [List.isEmpty])]
  rw [platformLoop_append, platformLoop_cons, if_neg hp]
  exact deviceLoop_find identifier p 0 _ h

theorem setOpenCLDevice_match_last_platform_w :
    SetOpenCLDevice 42 [[⟨1, 10⟩], [⟨7, 3⟩, ⟨42, 3⟩]] none =
      some ⟨42, 3⟩ :=
  (setOpenCLDevice_match_last_platform 42 [[⟨1, 10⟩]] [⟨7, 3⟩, ⟨42, 3⟩]
    none (by decide)).trans (by decide)

/-- Claim C1 fails on the code as stated: requesting id 42 finds the
matching device in platform one, yet the break only leaves that
platform, and the power-5 device of platform two then overrides the
selection (the power maximum restarts at zero there).  The final
selection is neither the matching device nor the globally most
powerful one. -/
theorem setOpenCLDevice_override_cex :
    SetOpenCLDevice 42 [[⟨42, 0⟩, ⟨1, 10⟩], [⟨2, 5⟩]] none = some ⟨2, 5⟩ ∧
    (Device.mk 2 5).deviceID ≠ 42 ∧
    (Device.mk 2 5).powerIndex < (Device.mk 1 10).powerIndex :=
  ⟨rfl, by decide, by decide⟩

/-! ### The diagnostics cap (claim C4) -/

theorem buildLoop_length_le (maxProblems : Int) (name : List Char) :
    ∀ (ls : List (List Char)) (count : Int),
      (buildLoop maxProblems name count ls).length ≤
        (maxProblems + 1 - count).toNat := by
  intro ls
  induction ls with
  | nil => intro count; simp [buildLoop]
  | cons l ls ih =>
    intro count
    unfold buildLoop
    cases hm : regexMatch l with
    | none => exact ih count
    | some m =>
      show (if count > maxProblems then ([] : List Diagnostic)
            else mkDiagnostic name m :: buildLoop maxProblems name (count + 1) ls).length ≤
          (maxProblems + 1 - count).toNat
      by_cases hc : count > maxProblems
      · rw [if_pos hc]; simp
      · rw [if_neg hc]
        have := ih (count + 1)
        simp only [List.length_cons]
        omega

/-- Claim C4 (amended): the parser can emit one diagnostic more than
the configured maximum, because the counter is compared with strict
inequality after the post-increment; the tight bound is
max_problems + 1 (and the bound max_problems itself fails, see the
counterexample). -/
theorem buildDiagnostics_cap (maxProblems : Int) (buildLog name : String)
    (h : 0 ≤ maxProblems) :
    ((BuildDiagnostics maxProblems buildLog name).length : Int) ≤
      maxProblems + 1 := by
  have := buildLoop_length_le maxProblems name.data (splitLines buildLog.data) 0
  unfold BuildDiagnostics
  omega

theorem buildDiagnostics_cap_w :
    ((BuildDiagnostics 2 "a:1:1: error: x\nb:2:2: error: y" "").length : Int) ≤
      2 + 1 :=
  buildDiagnostics_cap 2 "a:1:1: error: x\nb:2:2: error: y" "" (by decide)

/-- Claim C4 fails as stated: with the cap set to zero, a build log
with one matching line still yields one diagnostic, so the advertised
bound |get(s)| ≤ max_problems is violated. -/
theorem buildDiagnostics_cap_exceeded_cex :
    (BuildDiagnostics 0 "a:1:1: error: x" "").length = 1 ∧
    ¬ ((BuildDiagnostics 0 "a:1:1: error: x" "").length ≤ 0) :=
  ⟨rfl, by decide⟩

/-! ### Build-log line matching and severities (claims C6 and C7) -/

theorem buildLoop_mem (maxProblems : Int) (name : List Char) :
    ∀ (ls : List (List Char)) (count : Int) (d : Diagnostic),
      d ∈ buildLoop maxProblems name count ls →
      ∃ l ∈ ls, ∃ m, regexMatch l = some m ∧ d = mkDiagnostic name m := by
  intro ls
  induction ls with
  | nil => intro count d h; simp [buildLoop] at h
  | cons l ls ih =>
    intro count d h
    unfold buildLoop at h
    split at h
    · rename_i hm
      obtain ⟨l2, hmem, m2, hm2, hd⟩ := ih count d h
      exact ⟨l2, List.mem_cons_of_mem _ hmem, m2, hm2, hd⟩
    · rename_i m hm
      split at h
      · simp at h
      · rcases List.mem_cons.mp h with h1 | h2
        · exact ⟨l, List.mem_cons_self _ _, m, hm, h1⟩
        · obtain ⟨l2, hmem, m2, hm2, hd⟩ := ih (count + 1) d h2
          exact ⟨l2, List.mem_cons_of_mem _ hmem, m2, hm2, hd⟩

theorem parseSeverity_eq_one (sev : List Char) :
    ParseSeverity sev = 1 ↔ sev = "error".data := by
  unfold ParseSeverity
  split_ifs with h1 h2 <;> simp_all

theorem parseSeverity_eq_two (sev : List Char) :
    ParseSeverity sev = 2 ↔ sev = "warning".data := by
  unfold ParseSeverity
  split_ifs with h1 h2 <;> simp_all

/-- Claim C6 (amended): a diagnostic is produced only for lines
matched by the regex the code actually holds, whose severity
alternation is ((fatal )?error|warning|Scholar); the severity stored
is ParseSeverity of the full phrase of group 4, which is 1 exactly for
the phrase error, 2 exactly for warning, and -1 for both fatal error
and Scholar, such lines being emitted with severity -1 rather than
skipped (see the counterexample for a Scholar line being emitted). -/
theorem buildDiagnostics_severity (maxProblems : Int) (buildLog name : String) :
    ∀ d ∈ BuildDiagnostics maxProblems buildLog name,
      ∃ l ∈ splitLines buildLog.data, ∃ m,
        regexMatch l = some m ∧
        d.severity = ParseSeverity m.sev ∧
        (d.severity = 1 ↔ m.sev = "error".data) ∧
        (d.severity = 2 ↔ m.sev = "warning".data) := by
  intro d hd
  obtain ⟨l, hl, m, hm, hdm⟩ :=
    buildLoop_mem maxProblems name.data (splitLines buildLog.data) 0 d hd
  subst hdm
  exact ⟨l, hl, m, hm, rfl, parseSeverity_eq_one m.sev, parseSeverity_eq_two m.sev⟩

theorem buildDiagnostics_severity_w :
    ∃ l ∈ splitLines "x:3:4: warning: w".data, ∃ m,
      regexMatch l = some m ∧
      (Diagnostic.mk "x" ⟨⟨2, 4⟩, ⟨2, 4⟩⟩ 2 "w").severity = ParseSeverity m.sev ∧
      ((Diagnostic.mk "x" ⟨⟨2, 4⟩, ⟨2, 4⟩⟩ 2 "w").severity = 1 ↔
        m.sev = "error".data) ∧
      ((Diagnostic.mk "x" ⟨⟨2, 4⟩, ⟨2, 4⟩⟩ 2 "w").severity = 2 ↔
        m.sev = "warning".data) :=
  buildDiagnostics_severity 100 "x:3:4: warning: w" ""
    (Diagnostic.mk "x" ⟨⟨2, 4⟩, ⟨2, 4⟩⟩ 2 "w") (by decide)

/-- Claim C6 fails as stated: the line a:1:2: Scholar: m matches no
alternative of the contract regex ((fatal )?error|warning) yet the
code, whose regex carries the extra alternative Scholar, emits a
diagnostic for it, with severity -1 instead of skipping the line. -/
theorem buildDiagnostics_scholar_cex :
    BuildDiagnostics 100 "a:1:2: Scholar: m" "" =
      [Diagnostic.mk "a" ⟨⟨0, 2⟩, ⟨0, 2⟩⟩ (-1) "m"] := by decide

/-- Claim C7: every emitted diagnostic is a point diagnostic whose
start (and end) position carries the captured line number minus one
and the captured column unchanged. -/
theorem buildDiagnostics_point_range (maxProblems : Int) (buildLog name : String) :
    ∀ d ∈ BuildDiagnostics maxProblems buildLog name,
      d.range.start = d.range.stop ∧
      ∃ l ∈ splitLines buildLog.data, ∃ m,
        regexMatch l = some m ∧
        d.range.start.line = (m.line : Int) - 1 ∧
        d.range.start.character = (m.col : Int) := by
  intro d hd
  obtain ⟨l, hl, m, hm, hdm⟩ :=
    buildLoop_mem maxProblems name.data (splitLines buildLog.data) 0 d hd
  subst hdm
  exact ⟨rfl, l, hl, m, hm, rfl, rfl⟩

theorem buildDiagnostics_point_range_w :
    (Diagnostic.mk "x" ⟨⟨12, 5⟩, ⟨12, 5⟩⟩ 1 "boom").range.start =
      (Diagnostic.mk "x" ⟨⟨12, 5⟩, ⟨12, 5⟩⟩ 1 "boom").range.stop ∧
    ∃ l ∈ splitLines "x:13:5: error: boom".data, ∃ m,
      regexMatch l = some m ∧
      (Diagnostic.mk "x" ⟨⟨12, 5⟩, ⟨12, 5⟩⟩ 1 "boom").range.start.line =
        (m.line : Int) - 1 ∧
      (Diagnostic.mk "x" ⟨⟨12, 5⟩, ⟨12, 5⟩⟩ 1 "boom").range.start.character =
        (m.col : Int) :=
  buildDiagnostics_point_range 100 "x:13:5: error: boom" ""
    (Diagnostic.mk "x" ⟨⟨12, 5⟩, ⟨12, 5⟩⟩ 1 "boom") (by decide)

/-! ### Endpoint dispatch helper lemmas -/

theorem dispatch_eq_str (e : Endpoint) (body : J) (m : String)
    (hm : body.index "method" = some (.str m)) :
    dispatch e body = dispatchStr e body m := by
  unfold dispatch; rw [hm]

theorem dispatch_eq_fail (e : Endpoint) (body : J)
    (hm : body.index "method" = none) :
    dispatch e body = parseFailure e := by
  unfold dispatch; rw [hm]

theorem dispatch_eq_respond (e : Endpoint) (body : J) (mv : J)
    (hm : body.index "method" = some mv) (hns : ∀ s, mv ≠ .str s) :
    dispatch e body =
      ({ e with isProcessing := false }, fireRespondCallback e body) := by
  unfold dispatch; rw [hm]
  cases mv with
  | str s => exact absurd rfl (hns s)
  | null => rfl
  | bool b => rfl
  | num n => rfl
  | arr xs => rfl
  | obj fs => rfl

theorem fireMethodCallback_contains (e : Endpoint) (body : J)
    (h : e.callbacks.contains e.method = true) :
    fireMethodCallback e body = some [Event.methodCall e.method body] := by
  unfold fireMethodCallback; rw [if_pos h]

theorem fireMethodCallback_not_contains (e : Endpoint) (body : J)
    (h : e.callbacks.contains e.method = false) :
    fireMethodCallback e body = methodNotFoundEvents e body := by
  unfold fireMethodCallback; rw [if_neg (by rw [h]; simp)]

theorem methodNotFoundEvents_eq (e : Endpoint) (body p idv : J)
    (hp : body.index "params" = some p) (hid : p.index "id" = some idv) :
    methodNotFoundEvents e body =
      some (if !idv.isNull || !(startsDollarSlash e.method)
            then [Event.write (errorResponse .MethodNotFound
                    ("Method '" ++ e.method ++ "' is not supported."))]
            else []) := by
  unfold methodNotFoundEvents
  rw [hp]
  show (match p.index "id" with
        | none => none
        | some idv2 =>
          some (if !idv2.isNull || !(startsDollarSlash e.method)
                then [Event.write (errorResponse .MethodNotFound
                        ("Method '" ++ e.method ++ "' is not supported."))]
                else [])) = _
  rw [hid]

theorem finishDispatch_some (e : Endpoint) (body : J) (evs : List Event)
    (h : fireMethodCallback e body = some evs) :
    finishDispatch e body = ({ e with isProcessing := false }, evs) := by
  unfold finishDispatch; rw [h]

theorem finishDispatch_flags (e : Endpoint) (body : J) :
    (finishDispatch e body).1.initialized = e.initialized ∧
    (finishDispatch e body).1.tracing = e.tracing ∧
    (finishDispatch e body).1.verbosity = e.verbosity := by
  unfold finishDispatch
  cases fireMethodCallback e body <;> exact ⟨rfl, rfl, rfl⟩

theorem finishDispatch_isProcessing_contains (e : Endpoint) (body : J)
    (h : e.callbacks.contains e.method = true) :
    (finishDispatch e body).1.isProcessing = false := by
  rw [finishDispatch_some e body _ (fireMethodCallback_contains e body h)]

theorem finishDispatch_isProcessing_params (e : Endpoint) (body p idv : J)
    (hnc : e.callbacks.contains e.method = false)
    (hp : body.index "params" = some p) (hid : p.index "id" = some idv) :
    (finishDispatch e body).1.isProcessing = false := by
  have hfm := (fireMethodCallback_not_contains e body hnc).trans
    (methodNotFoundEvents_eq e body p idv hp hid)
  rw [finishDispatch_some e body _ hfm]

theorem onInitialize_some (e : Endpoint) (body : J) (tv : String)
    (h : getString2 body "params" "trace" = some tv) :
    onInitialize e body =
      { e with tracing := tv != "off", verbosity := tv == "verbose",
               initialized := true } := by
  unfold onInitialize; rw [h]

theorem onInitialize_none (e : Endpoint) (body : J)
    (h : getString2 body "params" "trace" = none) :
    onInitialize e body = e := by
  unfold onInitialize; rw [h]

theorem onInitialize_fields (e : Endpoint) (body : J) :
    ∃ t v i, onInitialize e body =
      { e with tracing := t, verbosity := v, initialized := i } := by
  unfold onInitialize
  cases getString2 body "params" "trace" with
  | none => exact ⟨e.tracing, e.verbosity, e.initialized, rfl⟩
  | some tv => exact ⟨tv != "off", tv == "verbose", true, rfl⟩

theorem onTracingChanged_fields (e : Endpoint) (body : J) :
    ∃ t v, onTracingChanged e body = { e with tracing := t, verbosity := v } := by
  unfold onTracingChanged
  cases getString2 body "params" "value" with
  | none => exact ⟨e.tracing, e.verbosity, rfl⟩
  | some tv => exact ⟨tv != "off", tv == "verbose", rfl⟩

/-! ### The lifecycle gate (claim C9) -/

/-- Claim C9: before initialize, any message carrying a string method
other than initialize yields exactly one NotInitialized (-32002)
error response, no handler call and no respond call; only m_method
changes. -/
theorem dispatch_not_initialized (e : Endpoint) (body : J) (m : String)
    (hm : body.index "method" = some (.str m))
    (hne : m ≠ "initialize") (hinit : e.initialized = false) :
    dispatch e body =
      ({ e with method := m },
       [Event.write (errorResponse .NotInitialized "Server was not initialized.")]) ∧
    ErrorCode.toInt .NotInitialized = -32002 := by
  refine ⟨?_, rfl⟩
  rw [dispatch_eq_str e body m hm]
  unfold dispatchStr
  rw [if_neg hne, if_pos hinit]

theorem dispatch_not_initialized_w :
    dispatch (Endpoint.mk [] true 0 "" false false false true [] false)
        (J.obj [("method", J.str "foo"), ("id", J.num 0)]) =
      (Endpoint.mk [] true 0 "foo" false false false true [] false,
       [Event.write (errorResponse .NotInitialized "Server was not initialized.")]) ∧
    ErrorCode.toInt .NotInitialized = -32002 := by
  have h := dispatch_not_initialized
    (Endpoint.mk [] true 0 "" false false false true [] false)
    (J.obj [("method", J.str "foo"), ("id", J.num 0)]) "foo" rfl
    (by decide) rfl
  exact ⟨h.1, h.2⟩

/-! ### Busy-flag clearing (claim C2) -/

/-- Claim C2 (amended): after a successful body parse the busy flag
is cleared on the handler path, the MethodNotFound and silent-drop
paths, and the respond path; it is NOT cleared on the NotInitialized
path (the early return skips line 80) nor when a json lookup throws
(non-object body, or unhandled method with a non-object params), so
is_ready() stays false there. -/
theorem dispatch_busy_paths (e : Endpoint) (body : J) :
    (∀ m, body.index "method" = some (.str m) →
      (m = "initialize" ∨ e.initialized = true) →
      e.callbacks.contains m = true →
      (dispatch e body).1.isProcessing = false) ∧
    (∀ m p idv, body.index "method" = some (.str m) →
      (m = "initialize" ∨ e.initialized = true) →
      body.index "params" = some p → p.index "id" = some idv →
      (dispatch e body).1.isProcessing = false) ∧
    (∀ mv, body.index "method" = some mv → (∀ s, mv ≠ .str s) →
      (dispatch e body).1.isProcessing = false) ∧
    (∀ m, body.index "method" = some (.str m) → m ≠ "initialize" →
      e.initialized = false →
      (dispatch e body).1.isProcessing = e.isProcessing ∧
      (dispatch e body).2 =
        [Event.write (errorResponse .NotInitialized "Server was not initialized.")]) ∧
    (body.index "method" = none →
      (dispatch e body).1.isProcessing = e.isProcessing) := by
  refine ⟨?_, ?_, ?_, ?_, ?_⟩
  · intro m hm hig hc
    rw [dispatch_eq_str e body m hm]
    unfold dispatchStr
    by_cases h1 : m = "initialize"
    · rw [if_pos h1]
      obtain ⟨t, v, i, heq⟩ := onInitialize_fields { e with method := m } body
      rw [heq]
      exact finishDispatch_isProcessing_contains _ body hc
    · rcases hig with h1' | hinit
      · exact absurd h1' h1
      · rw [if_neg h1, if_neg (by simp [hinit])]
        by_cases h2 : m = "$/setTrace"
        · rw [if_pos h2]
          obtain ⟨t, v, heq⟩ := onTracingChanged_fields { e with method := m } body
          rw [heq]
          exact finishDispatch_isProcessing_contains _ body hc
        · rw [if_neg h2]
          exact finishDispatch_isProcessing_contains _ body hc
  · intro m p idv hm hig hp hid
    rw [dispatch_eq_str e body m hm]
    unfold dispatchStr
    have key : ∀ e2 : Endpoint, e2.callbacks = e.callbacks →
        (finishDispatch e2 body).1.isProcessing = false := by
      intro e2 hcb
      by_cases hc : e2.callbacks.contains e2.method = true
      · exact finishDispatch_isProcessing_contains e2 body hc
      · exact finishDispatch_isProcessing_params e2 body p idv
          (by revert hc; cases e2.callbacks.contains e2.method <;> simp) hp hid
    by_cases h1 : m = "initialize"
    · rw [if_pos h1]
      obtain ⟨t, v, i, heq⟩ := onInitialize_fields { e with method := m } body
      rw [heq]; exact key _ rfl
    · rcases hig with h1' | hinit
      · exact absurd h1' h1
      · rw [if_neg h1, if_neg (by simp [hinit])]
        by_cases h2 : m = "$/setTrace"
        · rw [if_pos h2]
          obtain ⟨t, v, heq⟩ := onTracingChanged_fields { e with method := m } body
          rw [heq]; exact key _ rfl
        · rw [if_neg h2]; exact key _ rfl
  · intro mv hm hns
    rw [dispatch_eq_respond e body mv hm hns]
  · intro m hm hne hinit
    rw [dispatch_eq_str e body m hm]
    unfold dispatchStr
    rw [if_neg hne, if_pos hinit]
    exact ⟨rfl, rfl⟩
  · intro hm
    rw [dispatch_eq_fail e body hm]
    rfl

theorem dispatch_busy_paths_w :
    (dispatch (Endpoint.mk [] true 0 "" true false false true ["foo"] false)
        (J.obj [("method", J.str "foo")])).1.isProcessing = false :=
  (dispatch_busy_paths
    (Endpoint.mk [] true 0 "" true false false true ["foo"] false)
    (J.obj [("method", J.str "foo")])).1 "foo" rfl (Or.inr rfl) rfl

/-- Claim C2 fails as stated: a body that parses as a json object but
arrives before initialize is answered with the NotInitialized error
response, a path on which the early return skips clearing
m_isProcessing, so is_ready() afterwards is false, not true. -/
theorem consume_not_initialized_keeps_busy_cex :
    (consumeAll (Endpoint.mk [] true 14 "" false false false true [] false)
        "\x7b\"method\":\"x\"\x7d".data).1.isProcessing = true ∧
    IsReady (consumeAll (Endpoint.mk [] true 14 "" false false false true [] false)
        "\x7b\"method\":\"x\"\x7d".data).1 = false ∧
    Json.parse "\x7b\"method\":\"x\"\x7d".data =
      some (J.obj [("method", J.str "x")]) ∧
    (consumeAll (Endpoint.mk [] true 14 "" false false false true [] false)
        "\x7b\"method\":\"x\"\x7d".data).2 =
      [Event.write (errorResponse .NotInitialized "Server was not initialized.")] :=
  ⟨rfl, rfl, rfl, rfl⟩

/-! ### Initialize and the trace option (claim C3) -/

/-- Claim C3 (amended): dispatching an initialize message sets
initialized, tracing and verbose tracing if and only if params.trace
is present as a string; when trace is absent (or not a string) the
read throws, the exception is caught inside OnInitialize, and all
three flags are left unchanged, so a fresh endpoint stays
uninitialized: the documented default of off is not applied. -/
theorem dispatch_initialize_trace (e : Endpoint) (body : J)
    (hm : body.index "method" = some (.str "initialize")) :
    (∀ tv, getString2 body "params" "trace" = some tv →
      (dispatch e body).1.initialized = true ∧
      (dispatch e body).1.tracing = (tv != "off") ∧
      (dispatch e body).1.verbosity = (tv == "verbose")) ∧
    (getString2 body "params" "trace" = none →
      (dispatch e body).1.initialized = e.initialized ∧
      (dispatch e body).1.tracing = e.tracing ∧
      (dispatch e body).1.verbosity = e.verbosity) := by
  rw [dispatch_eq_str e body "initialize" hm]
  unfold dispatchStr
  rw [if_pos rfl]
  constructor
  · intro tv htv
    rw [onInitialize_some _ body tv htv]
    obtain ⟨h1, h2, h3⟩ := finishDispatch_flags
      { e with method := "initialize", tracing := tv != "off",
               verbosity := tv == "verbose", initialized := true } body
    exact ⟨h1, h2, h3⟩
  · intro htv
    rw [onInitialize_none _ body htv]
    obtain ⟨h1, h2, h3⟩ := finishDispatch_flags { e with method := "initialize" } body
    exact ⟨h1, h2, h3⟩

theorem dispatch_initialize_trace_w :
    (dispatch (Endpoint.mk [] true 0 "" false false false true [] false)
        (J.obj [("method", J.str "initialize"),
                ("params", J.obj [("trace", J.str "verbose")])])).1.initialized
      = true ∧
    (dispatch (Endpoint.mk [] true 0 "" false false false true [] false)
        (J.obj [("method", J.str "initialize"),
                ("params", J.obj [("trace", J.str "verbose")])])).1.tracing
      = true ∧
    (dispatch (Endpoint.mk [] true 0 "" false false false true [] false)
        (J.obj [("method", J.str "initialize"),
                ("params", J.obj [("trace", J.str "verbose")])])).1.verbosity
      = true := by
  have h := (dispatch_initialize_trace
    (Endpoint.mk [] true 0 "" false false false true [] false)
    (J.obj [("method", J.str "initialize"),
            ("params", J.obj [("trace", J.str "verbose")])]) rfl).1 "verbose" rfl
  exact ⟨h.1, h.2.1.trans rfl, h.2.2.trans rfl⟩

/-- Claim C3 fails as stated: an initialize message whose params carry
no trace field leaves initialized false (the claim asserts it becomes
true with trace defaulting to off). -/
theorem dispatch_initialize_missing_trace_cex :
    (dispatch (Endpoint.mk [] true 0 "" false false false true [] false)
        (J.obj [("method", J.str "initialize"),
                ("params", J.obj [])])).1.initialized = false ∧
    getString2 (J.obj [("method", J.str "initialize"), ("params", J.obj [])])
      "params" "trace" = none :=
  ⟨rfl, rfl⟩

/-! ### MethodNotFound for unhandled methods (claim C5) -/

/-- Claim C5 (amended): for a message with no registered handler the
MethodNotFound response is required if and only if m_body[params][id]
is non-null or the method name does not start with the dollar-slash
prefix; a top-level id field is never consulted, so a request with an
id outside params and a dollar-slash method is silently dropped. -/
theorem dispatch_method_not_found (e : Endpoint) (body p idv : J) (m : String)
    (hm : body.index "method" = some (.str m))
    (hinit : e.initialized = true)
    (hnc : e.callbacks.contains m = false)
    (hp : body.index "params" = some p)
    (hid : p.index "id" = some idv) :
    (dispatch e body).2 =
      (if !idv.isNull || !(startsDollarSlash m)
       then [Event.write (errorResponse .MethodNotFound
               ("Method '" ++ m ++ "' is not supported."))]
       else []) := by
  rw [dispatch_eq_str e body m hm]
  unfold dispatchStr
  have key : ∀ e2 : Endpoint, e2.callbacks = e.callbacks → e2.method = m →
      (finishDispatch e2 body).2 =
        (if !idv.isNull || !(startsDollarSlash m)
         then [Event.write (errorResponse .MethodNotFound
                 ("Method '" ++ m ++ "' is not supported."))]
         else []) := by
    intro e2 hcb hme
    have hfm : fireMethodCallback e2 body =
        some (if !idv.isNull || !(startsDollarSlash e2.method)
              then [Event.write (errorResponse .MethodNotFound
                      ("Method '" ++ e2.method ++ "' is not supported."))]
              else []) := by
      rw [fireMethodCallback_not_contains e2 body (by rw [hcb, hme]; exact hnc)]
      exact methodNotFoundEvents_eq e2 body p idv hp hid
    rw [finishDispatch_some e2 body _ hfm]
    rw [hme]
  by_cases h1 : m = "initialize"
  · rw [if_pos h1]
    obtain ⟨t, v, i, heq⟩ := onInitialize_fields { e with method := m } body
    rw [heq]
    exact key _ rfl rfl
  · rw [if_neg h1, if_neg (by simp [hinit])]
    by_cases h2 : m = "$/setTrace"
    · rw [if_pos h2]
      obtain ⟨t, v, heq⟩ := onTracingChanged_fields { e with method := m } body
      rw [heq]
      exact key _ rfl rfl
    · rw [if_neg h2]
      exact key _ rfl rfl

theorem dispatch_method_not_found_w :
    (dispatch (Endpoint.mk [] true 0 "" true false false true [] false)
        (J.obj [("method", J.str "foo"),
                ("params", J.obj [("id", J.null)])])).2 =
      [Event.write (errorResponse .MethodNotFound
        "Method 'foo' is not supported.")] := by
  have h := dispatch_method_not_found
    (Endpoint.mk [] true 0 "" true false false true [] false)
    (J.obj [("method", J.str "foo"), ("params", J.obj [("id", J.null)])])
    (J.obj [("id", J.null)]) J.null "foo" rfl rfl rfl rfl rfl
  exact h.trans rfl

/-- Claim C5 fails as stated: a message that carries a top-level id
field and a dollar-slash method with no handler produces no output at
all, although the claim requires a MethodNotFound response whenever
the message carries an id. -/
theorem dispatch_top_level_id_dropped_cex :
    (dispatch (Endpoint.mk [] true 0 "" true false false true [] false)
        (J.obj [("method", J.str "$/foo"), ("id", J.num 7)])).2 = [] ∧
    (J.obj [("method", J.str "$/foo"), ("id", J.num 7)]).index "id" =
      some (J.num 7) :=
  ⟨rfl, rfl⟩

/-! ### Trace notifications (claim C8) -/

/-- Claim C8 (amended): with tracing off nothing is emitted; with
tracing on but a non-empty verbose payload and verbose tracing off,
the whole notification is dropped (not just the verbose part); in the
remaining cases one notification is written whose params always
contain a verbose field, holding the payload when verbose tracing is
on and the empty string otherwise. -/
theorem logTrace_paths (e : Endpoint) (message verbose : String) :
    (e.tracing = false → logTrace e message verbose = []) ∧
    (e.tracing = true → verbose ≠ "" → e.verbosity = false →
      logTrace e message verbose = []) ∧
    (e.tracing = true → (verbose = "" ∨ e.verbosity = true) →
      logTrace e message verbose =
        [Event.write (.obj
          [("method", .str "$/logTrace"),
           ("params", .obj
             [("message", .str message),
              ("verbose", .str (if e.verbosity then verbose else ""))])])]) := by
  refine ⟨?_, ?_, ?_⟩
  · intro h; unfold logTrace; rw [h]; rfl
  · intro ht hv hvb; unfold logTrace; rw [ht, hvb]
    have hb : (verbose != "") = true := by simpa using hv
    simp [hb]
  · intro ht hd; unfold logTrace; rw [ht]
    rcases hd with hv | hvb
    · subst hv; simp
    · rw [hvb]; simp

theorem logTrace_paths_w :
    logTrace (Endpoint.mk [] false 0 "" true true true true [] false)
        "hi" "detail" =
      [Event.write (.obj
        [("method", .str "$/logTrace"),
         ("params", .obj
           [("message", .str "hi"), ("verbose", .str "detail")])])] := by
  have h := (logTrace_paths (Endpoint.mk [] false 0 "" true true true true [] false)
    "hi" "detail").2.2 rfl (Or.inr rfl)
  exact h.trans rfl

/-- Claim C8 fails as stated: with tracing enabled, verbose tracing
disabled and a non-empty verbose argument, the code emits nothing,
while the claim requires the message-carrying notification to still
be emitted. -/
theorem logTrace_dropped_cex :
    logTrace (Endpoint.mk [] false 0 "" true true false true [] false)
        "hi" "detail" = [] ∧
    (Endpoint.mk [] false 0 "" true true false true [] false).tracing = true :=
  ⟨rfl, rfl⟩

/-! ### Parse-failure recovery (claim C10) -/

theorem consumeAll_nil (e : Endpoint) : consumeAll e [] = (e, []) := rfl

theorem consumeAll_cons (e : Endpoint) (c : Char) (cs : List Char) :
    consumeAll e (c :: cs) =
      ((consumeAll (consume e c).1 cs).1,
       (consume e c).2 ++ (consumeAll (consume e c).1 cs).2) := rfl

theorem consume_body_acc (e : Endpoint) (c : Char)
    (hv : e.validHeader = true)
    (hne : (e.buffer ++ [c]).length ≠ e.contentLength) :
    consume e c = ({ e with buffer := e.buffer ++ [c] }, []) := by
  unfold consume; rw [if_pos hv, if_pos hne]

theorem consume_body_full (e : Endpoint) (c : Char)
    (hv : e.validHeader = true)
    (hl : (e.buffer ++ [c]).length = e.contentLength) :
    consume e c = finishBody { e with buffer := e.buffer ++ [c] } := by
  unfold consume; rw [if_pos hv, if_neg (fun hcon => hcon hl)]

theorem consumeAll_body (bs : List Char) :
    ∀ e : Endpoint, e.validHeader = true → bs ≠ [] →
      e.buffer.length + bs.length = e.contentLength →
      consumeAll e bs = finishBody { e with buffer := e.buffer ++ bs } := by
  induction bs with
  | nil => intro e _ hne _; exact absurd rfl hne
  | cons c rest ih =>
    intro e hv _ hlen
    simp only [List.length_cons] at hlen
    cases rest with
    | nil =>
      have hl : (e.buffer ++ [c]).length = e.contentLength := by
        simp only [List.length_nil] at hlen
        simp only [List.length_append, List.length_cons, List.length_nil]
        omega
      rw [consumeAll_cons, consume_body_full e c hv hl, consumeAll_nil]
      simp
    | cons c2 rest2 =>
      simp only [List.length_cons] at hlen
      have hne2 : (e.buffer ++ [c]).length ≠ e.contentLength := by
        simp only [List.length_append, List.length_cons, List.length_nil]
        omega
      rw [consumeAll_cons, consume_body_acc e c hv hne2]
      dsimp only
      have hlen3 : ({ e with buffer := e.buffer ++ [c] } : Endpoint).buffer.length
          + (c2 :: rest2).length
          = ({ e with buffer := e.buffer ++ [c] } : Endpoint).contentLength := by
        dsimp only
        simp only [List.length_append, List.length_cons, List.length_nil]
        omega
      rw [ih { e with buffer := e.buffer ++ [c] } hv (by simp) hlen3]
      simp [List.append_assoc]

/-- Claim C10: when the completed body fails to parse, Consume clears
only the buffer and reports ParseError (-32700); the endpoint stays in
the body region with the same content length and the same busy flag,
and the next content_length bytes fed to it are parsed as one fresh
body. -/
theorem consume_parse_error_recovery (e : Endpoint) (c : Char)
    (hv : e.validHeader = true)
    (hlen : (e.buffer ++ [c]).length = e.contentLength)
    (hparse : Json.parse (e.buffer ++ [c]) = none) :
    consume e c =
      ({ e with buffer := [] },
       [Event.write (errorResponse .ParseError "Failed to parse request")]) ∧
    ErrorCode.toInt .ParseError = -32700 ∧
    (∀ bs, bs ≠ [] → bs.length = e.contentLength →
      consumeAll { e with buffer := [] } bs = finishBody { e with buffer := bs }) := by
  refine ⟨?_, rfl, ?_⟩
  · rw [consume_body_full e c hv hlen]
    unfold finishBody
    dsimp only
    rw [hparse]
    rfl
  · intro bs hne hlen2
    have h := consumeAll_body bs { e with buffer := [] } hv hne
      (by dsimp only; simpa using hlen2)
    rw [h]
    dsimp only
    rw [List.nil_append]

theorem consume_parse_error_recovery_w :
    consume (Endpoint.mk [Char.ofNat 123] true 2 "" false false false true [] false)
        'x' =
      (Endpoint.mk [] true 2 "" false false false true [] false,
       [Event.write (errorResponse .ParseError "Failed to parse request")]) ∧
    consumeAll (Endpoint.mk [] true 2 "" false false false true [] false)
        ['4', '2'] =
      finishBody (Endpoint.mk ['4', '2'] true 2 "" false false false true [] false) := by
  have h := consume_parse_error_recovery
    (Endpoint.mk [Char.ofNat 123] true 2 "" false false false true [] false)
    'x' rfl (by decide) (by rfl)
  exact ⟨h.1, h.2.2 ['4', '2'] (by decide) (by decide)⟩

end Ocls
